import Mathlib

/-!
Verification development for the storage engine of `src/prjTLManager/TLManager-s.py`
(a Flask to-do list record store).  The Python handlers `handle_get`, `handle_post`,
`handle_patch` and `handle_delete`, together with the module-level database
initialization block, are shallowly embedded below: Python dictionaries become
ordered association lists, the persisted file and its temporary sibling become an
explicit file-system state, and every file-system side effect is also recorded in an
event trace so that the write protocol (open, dump, flush, fsync, rename) can be
stated and checked.  Injected I/O failures (lock timeout, failure inside a write
block, failure of `os.replace`) are modeled by a `World` record; with the honest
world all primitives succeed whenever their preconditions hold.
-/

/-- JSON values as produced by `json.load` in Python.  Numbers are modeled as
integers (the store uses string, boolean, integer, null, array and object fields;
no claim involves non-integer numerics). -/
inductive JVal where
  | null : JVal
  | bool : Bool → JVal
  | num : Int → JVal
  | str : String → JVal
  | arr : List JVal → JVal
  | obj : List (String × JVal) → JVal

/-- A Record is a Python dict loaded from JSON: an insertion-ordered association
list from string keys to JSON values (keys unique in any dict Python builds). -/
abbrev Rec := List (String × JVal)

/-- First binding of key `k` in an association list (Python dict access order). -/
def lookupJ (k : String) : List (String × JVal) → Option JVal
  | [] => none
  | (k1, v) :: rest => if k1 = k then some v else lookupJ k rest

/-- Python `d.get(k)`: the stored value, or `None` when the key is absent.  A stored
JSON `null` is also Python `None`, so both cases yield `JVal.null`. -/
def dget (d : Rec) (k : String) : JVal :=
  (lookupJ k d).getD JVal.null

/-- Python `x is None` on a value obtained from `d.get(k)`. -/
def JVal.isNull : JVal → Bool
  | .null => true
  | _ => false

mutual

/-- Python `==` on JSON-loaded values: `None == None`; booleans compare equal to
their numeric value (`True == 1`); numbers by value; strings by content (a string
is never `==` a number); lists elementwise; dicts by equal size and every binding
of the left dict matching an `==` binding in the right dict. -/
def pyEq : JVal → JVal → Bool
  | .null, .null => true
  | .bool a, .bool b => a == b
  | .bool a, .num m => (if a then (1 : Int) else 0) == m
  | .num n, .bool b => n == (if b then (1 : Int) else 0)
  | .num n, .num m => n == m
  | .str a, .str b => a == b
  | .arr xs, .arr ys => pyEqList xs ys
  | .obj xs, .obj ys => xs.length == ys.length && pyEqObjSub xs ys
  | _, _ => false
termination_by structural a _ => a

/-- Python `==` on lists: same length and elementwise `==`. -/
def pyEqList : List JVal → List JVal → Bool
  | [], [] => true
  | x :: xs, y :: ys => pyEq x y && pyEqList xs ys
  | _, _ => false
termination_by structural xs _ => xs

/-- Every binding of the left dict maps, via key lookup in the right dict, to an
`==` value (with the length check this is Python dict equality, dicts having
unique keys). -/
def pyEqObjSub : List (String × JVal) → List (String × JVal) → Bool
  | [], _ => true
  | (k, v) :: rest, ys =>
    (match lookupJ k ys with
     | some v1 => pyEq v v1
     | none => false) && pyEqObjSub rest ys
termination_by structural xs _ => xs

end

/-- Python `d[k] = v` on a dict: replace the binding in place if the key exists,
otherwise append the new binding at the end (insertion order preserved). -/
def dset : Rec → String → JVal → Rec
  | [], k, v => [(k, v)]
  | (k1, v1) :: rest, k, v =>
    if k1 = k then (k, v) :: rest else (k1, v1) :: dset rest k v

/-- Python `d.update(upd)`: apply each binding of `upd`, in order, to `d`. -/
def dupdate (d : Rec) (upd : Rec) : Rec :=
  upd.foldl (fun acc kv => dset acc kv.1 kv.2) d

/-- The dict comprehension in `handle_patch`:
all bindings of the update payload whose key is not `id`. -/
def patchUpdates (updated_data : Rec) : Rec :=
  updated_data.filter (fun kv => kv.1 != "id")

/-- Outcome of the record-scanning loop in `handle_patch`. -/
inductive ScanResult where
  | noMatch : ScanResult
  | emptyUpdates : ScanResult
  | updated : List Rec → ScanResult

/-- The `for data in db_data` loop of `handle_patch`: find the first record whose
`id` compares `==` to the requested id; if the non-`id` update set is empty return
the no-op outcome, otherwise update that record in place and stop. -/
def patchScan (updated_data : Rec) (udId : JVal) : List Rec → ScanResult
  | [] => ScanResult.noMatch
  | data :: rest =>
    if pyEq (dget data "id") udId then
      let updates := patchUpdates updated_data
      if updates.isEmpty then ScanResult.emptyUpdates
      else ScanResult.updated (dupdate data updates :: rest)
    else
      match patchScan updated_data udId rest with
      | ScanResult.noMatch => ScanResult.noMatch
      | ScanResult.emptyUpdates => ScanResult.emptyUpdates
      | ScanResult.updated rest2 => ScanResult.updated (data :: rest2)

/-- The two files the engine touches: the persisted database file `DB_FILE` and its
temporary sibling `DB_FILENAME_TMP`. -/
inductive FName where
  | db : FName
  | tmp : FName
deriving DecidableEq

/-- File-system events, in the order the Python code issues them: `open(p, "r")`,
`open(p, "w")` (creates or truncates), `json.dump`, `file.flush()`,
`os.fsync`, `os.replace(src, dst)`, `os.remove`, plus lock acquisition and
release of the `FileLock`. -/
inductive Ev where
  | acquire : Ev
  | release : Ev
  | openRead : FName → Ev
  | openWrite : FName → Ev
  | dump : FName → Ev
  | flush : FName → Ev
  | fsync : FName → Ev
  | replace : FName → FName → Ev
  | remove : FName → Ev
deriving DecidableEq

/-- Contents of one file: either a valid JSON serialization of a record list, or
bytes that fail `json.load` (corrupt / partially written). -/
inductive FileContent where
  | good : List Rec → FileContent
  | corrupt : FileContent

/-- The file-system state visible to the engine: the database file and the
temporary file, each either absent or holding some content. -/
structure FS where
  db : Option FileContent
  tmp : Option FileContent

/-- Read a file slot by name. -/
def FS.getF : FS → FName → Option FileContent
  | fs, .db => fs.db
  | fs, .tmp => fs.tmp

/-- Overwrite a file slot by name. -/
def FS.setF : FS → FName → Option FileContent → FS
  | fs, .db, c => ⟨c, fs.tmp⟩
  | fs, .tmp, c => ⟨fs.db, c⟩

/-- Failure injection: whether the `FileLock` acquisition times out, whether the
open-write/dump/flush/fsync block fails mid-write, and whether `os.replace` fails
even when its source exists (it always fails when the source is absent). -/
structure World where
  lockTimeout : Bool
  writeFails : Bool
  replaceFails : Bool

/-- The world in which every I/O primitive succeeds whenever its preconditions
hold: no lock timeout and no injected write or rename failure. -/
def World.honest : World := ⟨false, false, false⟩

/-- Outcome classification of reading the database file
(`open(DB_FILE, "r")` followed by `json.load`). -/
inductive ReadErr where
  | notFound : ReadErr
  | corrupt : ReadErr

/-- `open(DB_FILE, "r")` + `json.load(file)`: `FileNotFoundError` when the file is
absent, `json.JSONDecodeError` when its bytes do not parse, else the record list. -/
def readDb (fs : FS) : List Ev × Except ReadErr (List Rec) :=
  match fs.db with
  | none => ([Ev.openRead .db], Except.error ReadErr.notFound)
  | some FileContent.corrupt => ([Ev.openRead .db], Except.error ReadErr.corrupt)
  | some (FileContent.good d) => ([Ev.openRead .db], Except.ok d)

/-- The write block `with open(f, "w") as file: json.dump(data, file);
file.flush(); os.fsync(file.fileno())`.  On an injected failure the file has been
created or truncated and partially written (its old content is gone); on success
it holds the full serialization of `data`. -/
def writeBlock (w : World) (f : FName) (data : List Rec) (fs : FS) :
    List Ev × FS × Bool :=
  if w.writeFails then
    ([Ev.openWrite f, Ev.dump f], fs.setF f (some FileContent.corrupt), false)
  else
    ([Ev.openWrite f, Ev.dump f, Ev.flush f, Ev.fsync f],
     fs.setF f (some (FileContent.good data)), true)

/-- `os.replace(src, dst)`: raises `FileNotFoundError` when the source is absent;
otherwise it either fails (injected) leaving both files alone, or atomically moves
the source content onto the destination. -/
def replaceStep (w : World) (src dst : FName) (fs : FS) : List Ev × FS × Bool :=
  match fs.getF src with
  | none => ([Ev.replace src dst], fs, false)
  | some c =>
    if w.replaceFails then ([Ev.replace src dst], fs, false)
    else ([Ev.replace src dst], (fs.setF dst (some c)).setF src none, true)

/-- The `finally` block shared by the initialization code and the mutating
handlers: remove the temporary file if it still exists (best effort, failures
swallowed and ignored here). -/
def cleanupTmp (fs : FS) : List Ev × FS :=
  match fs.tmp with
  | none => ([], fs)
  | some _ => ([Ev.remove .tmp], ⟨fs.db, none⟩)

/-- What a handler call produces for its caller: a JSON body with an HTTP code
(`jsonify(...), 200`), a structured status dict with an HTTP code
(`\x7b"status": msg\x7d, code`), or a `RuntimeError` raised out of the handler. -/
inductive HResult where
  | body : List Rec → Nat → HResult
  | status : String → Nat → HResult
  | raised : String → HResult

/-- True when the handler returned a structured response to its caller rather
than raising an exception. -/
def HResult.isStructured : HResult → Bool
  | .raised _ => false
  | _ => true

/-- The module-level initialization block (lines 52-90): under the lock, write an
empty list to the temporary file (dump, flush, fsync), then `os.replace` it onto
`DB_FILE`; any write or rename failure, and a lock timeout, are re-raised as
`RuntimeError`; the `finally` block removes a leftover temporary file. -/
inductive InitResult where
  | ok : InitResult
  | failed : String → InitResult

/-- Embedding of the database create / initialize block run once at start-up. -/
def db_init (w : World) (fs : FS) : List Ev × FS × InitResult :=
  if w.lockTimeout then
    match cleanupTmp fs with
    | (evC, fs1) => (evC, fs1, InitResult.failed "DB is currently locked by another ops")
  else
    match writeBlock w FName.tmp [] fs with
    | (evW, fs1, true) =>
      match replaceStep w FName.tmp FName.db fs1 with
      | (evRep, fs2, ok) =>
        match cleanupTmp fs2 with
        | (evC, fs3) =>
          ([Ev.acquire] ++ evW ++ evRep ++ [Ev.release] ++ evC, fs3,
           if ok then InitResult.ok
           else InitResult.failed "failed to create/initialize DB atomically")
    | (evW, fs1, false) =>
      match cleanupTmp fs1 with
      | (evC, fs2) =>
        ([Ev.acquire] ++ evW ++ [Ev.release] ++ evC, fs2,
         InitResult.failed "failed to create/initialize DB atomically")

/-- Embedding of `handle_get` (lines 94-115): under the lock, read and parse
`DB_FILE` and return it with 200; `FileNotFoundError` becomes the 404 status
"DB missing"; `json.JSONDecodeError` and a lock `Timeout` are re-raised as
`RuntimeError` (no `finally` block in this handler). -/
def handle_get (w : World) (fs : FS) : List Ev × FS × HResult :=
  if w.lockTimeout then
    ([], fs, HResult.raised "handle_get() : DB busy, try again")
  else
    match readDb fs with
    | (evR, Except.ok db_data) =>
      ([Ev.acquire] ++ evR ++ [Ev.release], fs, HResult.body db_data 200)
    | (evR, Except.error ReadErr.notFound) =>
      ([Ev.acquire] ++ evR ++ [Ev.release], fs, HResult.status "DB missing" 404)
    | (evR, Except.error ReadErr.corrupt) =>
      ([Ev.acquire] ++ evR ++ [Ev.release], fs, HResult.raised "handle_get() : DB corrupted")

/-- Embedding of `handle_post` (lines 118-161): under the lock, read the database
(404 when missing, 500 when corrupt), append `new_data` to the end of the list,
write the new list to the temporary file (dump, flush, fsync) and `os.replace` it
onto `DB_FILE`; any `OSError` in the write phase becomes the 500 status; a lock
`Timeout` is re-raised as `RuntimeError`; the `finally` block removes a leftover
temporary file on every path. -/
def handle_post (w : World) (new_data : Rec) (fs : FS) : List Ev × FS × HResult :=
  if w.lockTimeout then
    match cleanupTmp fs with
    | (evC, fs1) =>
      (evC, fs1, HResult.raised "handle_post() : DB currently locked by another ops")
  else
    match readDb fs with
    | (evR, Except.error ReadErr.notFound) =>
      match cleanupTmp fs with
      | (evC, fs1) =>
        ([Ev.acquire] ++ evR ++ [Ev.release] ++ evC, fs1,
         HResult.status "DB file missing" 404)
    | (evR, Except.error ReadErr.corrupt) =>
      match cleanupTmp fs with
      | (evC, fs1) =>
        ([Ev.acquire] ++ evR ++ [Ev.release] ++ evC, fs1,
         HResult.status "DB file corrupted" 500)
    | (evR, Except.ok db_data) =>
      match writeBlock w FName.tmp (db_data ++ [new_data]) fs with
      | (evW, fs1, true) =>
        match replaceStep w FName.tmp FName.db fs1 with
        | (evRep, fs2, ok) =>
          match cleanupTmp fs2 with
          | (evC, fs3) =>
            ([Ev.acquire] ++ evR ++ evW ++ evRep ++ [Ev.release] ++ evC, fs3,
             if ok then HResult.status "ok" 200
             else HResult.status "OSError, IOError, JSONEncodeError" 500)
      | (evW, fs1, false) =>
        match cleanupTmp fs1 with
        | (evC, fs2) =>
          ([Ev.acquire] ++ evR ++ evW ++ [Ev.release] ++ evC, fs2,
           HResult.status "OSError, IOError, JSONEncodeError" 500)

/-- Embedding of `handle_patch` (lines 164-229): first, `updated_data.get("id")`
is checked against `None` before the lock is taken (404 "updated_data_id missing"
with no file access at all); then, under the lock, the database is read (404 when
missing, 500 when corrupt), the record list is scanned by `patchScan`; when the
update set is empty the 404 no-op status is returned without writing; otherwise
(match updated in place, or no match at all, which only logs) the resulting list
is written to the temporary file and `os.replace`d onto `DB_FILE`, yielding the
200 "ok" status; write-phase `OSError` becomes the 500 status; a lock `Timeout`
is re-raised as `RuntimeError`; the `finally` block removes a leftover temporary
file. -/
def handle_patch (w : World) (updated_data : Rec) (fs : FS) : List Ev × FS × HResult :=
  if (dget updated_data "id").isNull then
    ([], fs, HResult.status "updated_data_id missing" 404)
  else if w.lockTimeout then
    match cleanupTmp fs with
    | (evC, fs1) =>
      (evC, fs1, HResult.raised "handle_patch() : DB currently locked by another ops")
  else
    match readDb fs with
    | (evR, Except.error ReadErr.notFound) =>
      match cleanupTmp fs with
      | (evC, fs1) =>
        ([Ev.acquire] ++ evR ++ [Ev.release] ++ evC, fs1,
         HResult.status "DB file missing" 404)
    | (evR, Except.error ReadErr.corrupt) =>
      match cleanupTmp fs with
      | (evC, fs1) =>
        ([Ev.acquire] ++ evR ++ [Ev.release] ++ evC, fs1,
         HResult.status "DB file corrupted" 500)
    | (evR, Except.ok db_data) =>
      match patchScan updated_data (dget updated_data "id") db_data with
      | ScanResult.emptyUpdates =>
        match cleanupTmp fs with
        | (evC, fs1) =>
          ([Ev.acquire] ++ evR ++ [Ev.release] ++ evC, fs1,
           HResult.status "updated_data does not matched database" 404)
      | ScanResult.noMatch =>
        match writeBlock w FName.tmp db_data fs with
        | (evW, fs1, true) =>
          match replaceStep w FName.tmp FName.db fs1 with
          | (evRep, fs2, ok) =>
            match cleanupTmp fs2 with
            | (evC, fs3) =>
              ([Ev.acquire] ++ evR ++ evW ++ evRep ++ [Ev.release] ++ evC, fs3,
               if ok then HResult.status "ok" 200
               else HResult.status "OSError, IOError, JSONEncodeError" 500)
        | (evW, fs1, false) =>
          match cleanupTmp fs1 with
          | (evC, fs2) =>
            ([Ev.acquire] ++ evR ++ evW ++ [Ev.release] ++ evC, fs2,
             HResult.status "OSError, IOError, JSONEncodeError" 500)
      | ScanResult.updated newDb =>
        match writeBlock w FName.tmp newDb fs with
        | (evW, fs1, true) =>
          match replaceStep w FName.tmp FName.db fs1 with
          | (evRep, fs2, ok) =>
            match cleanupTmp fs2 with
            | (evC, fs3) =>
              ([Ev.acquire] ++ evR ++ evW ++ evRep ++ [Ev.release] ++ evC, fs3,
               if ok then HResult.status "ok" 200
               else HResult.status "OSError, IOError, JSONEncodeError" 500)
        | (evW, fs1, false) =>
          match cleanupTmp fs1 with
          | (evC, fs2) =>
            ([Ev.acquire] ++ evR ++ evW ++ [Ev.release] ++ evC, fs2,
             HResult.status "OSError, IOError, JSONEncodeError" 500)

/-- Embedding of `handle_delete` (lines 232-285): under the lock, the database is
read (404 when missing, 500 when corrupt); `data_id = str(data_id)` turns the
integer path component into its decimal string, and the filtered list keeps every
record whose `id` field is not `==` to that string; equal lengths mean no match
(404 "task not found" without writing).  Otherwise the source opens `DB_FILE`
ITSELF for writing (line 263 writes the filtered list in place over the target,
unlike `handle_post` / `handle_patch` which write the temporary file) and then
calls `os.replace(DB_FILENAME_TMP, DB_FILE)`; write-phase `OSError` (including
`FileNotFoundError` raised by that rename when no temporary file exists) becomes
the 500 status; a lock `Timeout` is re-raised as `RuntimeError`; the `finally`
block removes a leftover temporary file. -/
def handle_delete (w : World) (data_id : Nat) (fs : FS) : List Ev × FS × HResult :=
  if w.lockTimeout then
    match cleanupTmp fs with
    | (evC, fs1) =>
      (evC, fs1, HResult.raised "handle_delete() : DB currently locked by another ops")
  else
    match readDb fs with
    | (evR, Except.error ReadErr.notFound) =>
      match cleanupTmp fs with
      | (evC, fs1) =>
        ([Ev.acquire] ++ evR ++ [Ev.release] ++ evC, fs1,
         HResult.status "DB file missing" 404)
    | (evR, Except.error ReadErr.corrupt) =>
      match cleanupTmp fs with
      | (evC, fs1) =>
        ([Ev.acquire] ++ evR ++ [Ev.release] ++ evC, fs1,
         HResult.status "DB file corrupted" 500)
    | (evR, Except.ok db_data) =>
      let updated_data :=
        db_data.filter (fun data => !(pyEq (dget data "id") (JVal.str (toString data_id))))
      if updated_data.length = db_data.length then
        match cleanupTmp fs with
        | (evC, fs1) =>
          ([Ev.acquire] ++ evR ++ [Ev.release] ++ evC, fs1,
           HResult.status "task not found" 404)
      else
        match writeBlock w FName.db updated_data fs with
        | (evW, fs1, true) =>
          match replaceStep w FName.tmp FName.db fs1 with
          | (evRep, fs2, ok) =>
            match cleanupTmp fs2 with
            | (evC, fs3) =>
              ([Ev.acquire] ++ evR ++ evW ++ evRep ++ [Ev.release] ++ evC, fs3,
               if ok then HResult.status "ok" 200
               else HResult.status "OSError, IOError, JSONEncodeError" 500)
        | (evW, fs1, false) =>
          match cleanupTmp fs1 with
          | (evC, fs2) =>
            ([Ev.acquire] ++ evR ++ evW ++ [Ev.release] ++ evC, fs2,
             HResult.status "OSError, IOError, JSONEncodeError" 500)

/-! Lemmas about dict lookup, dict update and the patch merge. -/

/-- A lookup misses exactly when no binding carries the key. -/
theorem lookupJ_eq_none {l : Rec} {k : String} :
    lookupJ k l = none ↔ ∀ p ∈ l, p.1 ≠ k := by
  induction l with
  | nil => simp [lookupJ]
  | cons p rest ih =>
    obtain ⟨k1, v⟩ := p
    by_cases h : k1 = k
    · subst h
      simp [lookupJ]
    · simp [lookupJ, h, ih]

/-- Setting a key makes it look up to the new value. -/
theorem lookupJ_dset_self (d : Rec) (k : String) (v : JVal) :
    lookupJ k (dset d k v) = some v := by
  induction d with
  | nil => simp [dset, lookupJ]
  | cons p rest ih =>
    obtain ⟨k1, v1⟩ := p
    by_cases h : k1 = k
    · subst h
      simp [dset, lookupJ]
    · simp [dset, lookupJ, h, ih]

/-- Setting one key leaves the lookup of any other key unchanged. -/
theorem lookupJ_dset_ne (d : Rec) {k k1 : String} (h : k1 ≠ k) (v : JVal) :
    lookupJ k (dset d k1 v) = lookupJ k d := by
  induction d with
  | nil => simp [dset, lookupJ, h]
  | cons p rest ih =>
    obtain ⟨k2, v2⟩ := p
    by_cases h2 : k2 = k1
    · subst h2
      simp [dset, lookupJ, h]
    · by_cases h3 : k2 = k
      · subst h3
        simp [dset, lookupJ, h2]
      · simp [dset, lookupJ, h2, h3, ih]

/-- `dupdate` with a list of bindings that never mentions key `k` leaves the
lookup of `k` unchanged. -/
theorem lookupJ_dupdate_not_mem (upd : Rec) (d : Rec) {k : String}
    (h : ∀ p ∈ upd, p.1 ≠ k) :
    lookupJ k (dupdate d upd) = lookupJ k d := by
  induction upd generalizing d with
  | nil => simp [dupdate]
  | cons p rest ih =>
    have hp : p.1 ≠ k := h p (by simp)
    have hrest : ∀ q ∈ rest, q.1 ≠ k := fun q hq => h q (by simp [hq])
    calc lookupJ k (dupdate d (p :: rest))
        = lookupJ k (dupdate (dset d p.1 p.2) rest) := by simp [dupdate]
      _ = lookupJ k (dset d p.1 p.2) := ih _ hrest
      _ = lookupJ k d := lookupJ_dset_ne _ hp _

/-- When the update list has no duplicate keys, `dupdate` makes every key of the
update list look up to its value from the update list. -/
theorem lookupJ_dupdate_of_lookupJ (upd : Rec) (d : Rec) {k : String} {v : JVal}
    (hN : (upd.map Prod.fst).Nodup) (h : lookupJ k upd = some v) :
    lookupJ k (dupdate d upd) = some v := by
  induction upd generalizing d with
  | nil => simp [lookupJ] at h
  | cons p rest ih =>
    obtain ⟨k1, v1⟩ := p
    simp only [List.map_cons, List.nodup_cons] at hN
    by_cases hk : k1 = k
    · subst hk
      have h1 : lookupJ k1 ((k1, v1) :: rest) = some v1 := by simp [lookupJ]
      rw [h1] at h
      have hrest : ∀ q ∈ rest, q.1 ≠ k1 := by
        intro q hq
        intro hqe
        exact hN.1 (hqe ▸ List.mem_map_of_mem Prod.fst hq)
      calc lookupJ k1 (dupdate d ((k1, v1) :: rest))
          = lookupJ k1 (dupdate (dset d k1 v1) rest) := by simp [dupdate]
        _ = lookupJ k1 (dset d k1 v1) := lookupJ_dupdate_not_mem _ _ hrest
        _ = some v1 := lookupJ_dset_self _ _ _
        _ = some v := h
    · simp only [lookupJ, if_neg hk] at h
      calc lookupJ k (dupdate d ((k1, v1) :: rest))
          = lookupJ k (dupdate (dset d k1 v1) rest) := by simp [dupdate]
        _ = some v := ih _ hN.2 h

/-- Looking up a key other than `id` in the patch update set is looking it up in
the raw payload. -/
theorem lookupJ_patchUpdates (upd : Rec) {k : String} (h : k ≠ "id") :
    lookupJ k (patchUpdates upd) = lookupJ k upd := by
  induction upd with
  | nil => rfl
  | cons p rest ih =>
    obtain ⟨k1, v1⟩ := p
    by_cases h1 : k1 = "id"
    · subst h1
      have : ¬ ("id" = k) := fun he => h he.symm
      simp [patchUpdates, lookupJ, this] at ih ⊢
      exact ih
    · by_cases h2 : k1 = k
      · subst h2
        simp [patchUpdates, lookupJ, h1]
      · simp [patchUpdates, lookupJ, h1, h2] at ih ⊢
        exact ih

/-- The patch update set never contains the key `id`. -/
theorem lookupJ_patchUpdates_id (upd : Rec) :
    lookupJ "id" (patchUpdates upd) = none := by
  rw [lookupJ_eq_none]
  intro p hp
  have := List.of_mem_filter hp
  simpa using this

/-- When no record id compares Python-equal to the requested id, the patch scan
reports no match. -/
theorem patchScan_noMatch (ud : Rec) (udId : JVal) (d : List Rec)
    (h : ∀ r ∈ d, pyEq (dget r "id") udId = false) :
    patchScan ud udId d = ScanResult.noMatch := by
  induction d with
  | nil => rfl
  | cons a rest ih =>
    have ha : pyEq (dget a "id") udId = false := h a (by simp)
    have hrest := ih (fun r hr => h r (by simp [hr]))
    simp [patchScan, ha, hrest]

/-- When the update set is nonempty, the patch scan never reports the no-op
(empty update) outcome. -/
theorem patchScan_ne_emptyUpdates (ud : Rec) (udId : JVal) (d : List Rec)
    (h : (patchUpdates ud).isEmpty = false) :
    patchScan ud udId d ≠ ScanResult.emptyUpdates := by
  induction d with
  | nil => simp [patchScan]
  | cons a rest ih =>
    by_cases ha : pyEq (dget a "id") udId
    · simp [patchScan, ha, h]
    · simp only [patchScan, ha, Bool.false_eq_true, if_false]
      cases hs : patchScan ud udId rest with
      | noMatch => simp
      | emptyUpdates => exact absurd hs ih
      | updated rest2 => simp

/-! Claim theorems. -/

/-- Claim C8: for every record `r` and every valid store state, `Append(r)`
(`handle_post`) immediately followed by `FetchAll()` (`handle_get`) yields a
sequence containing a record equal to `r`; `r` is appended at the end of the
sequence, with no uniqueness check against existing id values (the statement
quantifies over every prior record list `d`, including lists that already hold
records with the same id). -/
theorem c8_append_then_fetch_roundtrip (d : List Rec) (t : Option FileContent) (r : Rec) :
    (handle_post World.honest r ⟨some (FileContent.good d), t⟩).2.2
      = HResult.status "ok" 200 ∧
    (handle_post World.honest r ⟨some (FileContent.good d), t⟩).2.1.db
      = some (FileContent.good (d ++ [r])) ∧
    (handle_get World.honest
        (handle_post World.honest r ⟨some (FileContent.good d), t⟩).2.1).2.2
      = HResult.body (d ++ [r]) 200 ∧
    r ∈ d ++ [r] :=
  ⟨rfl, rfl, rfl, by simp⟩

/-- Claim C10: `handle_patch` treats a payload whose `id` field is present but
`null` exactly like a payload with no `id` field at all (both make
`updated_data.get("id")` return `None`): it reports the id-missing 404 outcome
immediately, with an empty event trace — so no lock acquisition and no read or
write of any file — and with the file system unchanged.  This holds in every
world, even one whose lock could not be acquired. -/
theorem c10_patch_null_id_like_missing (w : World) (ud : Rec) (fs : FS)
    (h : dget ud "id" = JVal.null) :
    handle_patch w ud fs = ([], fs, HResult.status "updated_data_id missing" 404) := by
  simp [handle_patch, h, JVal.isNull]

/-- Witness for C10 at a concrete input whose `id` field is present and `null`. -/
theorem c10_patch_null_id_like_missing_witness :
    dget [("id", JVal.null), ("title", JVal.str "a")] "id" = JVal.null ∧
    handle_patch ⟨true, true, true⟩ [("id", JVal.null), ("title", JVal.str "a")]
        ⟨some (FileContent.good []), some FileContent.corrupt⟩
      = ([], ⟨some (FileContent.good []), some FileContent.corrupt⟩,
         HResult.status "updated_data_id missing" 404) :=
  ⟨rfl, c10_patch_null_id_like_missing ⟨true, true, true⟩ _ _ rfl⟩

/-- Claim C9: the id comparison in `handle_delete` is Python `==` between the
stored `id` value and the decimal string of the integer taken from the request
path (`data_id = str(data_id)`).  A JSON-number id is never `==` a string, so a
store in which every record carries a numeric `id` field yields the 404
"task not found" outcome — even when the numbers are numerically equal to the
requested id — and the database file is left unchanged. -/
theorem c9_delete_numeric_id_never_matches (data_id : Nat) (d : List Rec)
    (t : Option FileContent)
    (h : ∀ r ∈ d, ∃ m : Int, dget r "id" = JVal.num m) :
    (∀ (m : Int) (s : String), pyEq (JVal.num m) (JVal.str s) = false) ∧
    (handle_delete World.honest data_id ⟨some (FileContent.good d), t⟩).2.2
      = HResult.status "task not found" 404 ∧
    (handle_delete World.honest data_id ⟨some (FileContent.good d), t⟩).2.1.db
      = some (FileContent.good d) := by
  have hf : d.filter
      (fun data => !(pyEq (dget data "id") (JVal.str (toString data_id)))) = d := by
    apply List.filter_eq_self.mpr
    intro a ha
    obtain ⟨m, hm⟩ := h a ha
    rw [hm]
    rfl
  refine ⟨fun _ _ => rfl, ?_, ?_⟩ <;>
    cases t <;>
      simp [handle_delete, readDb, World.honest, hf, cleanupTmp]

/-- Witness for C9: a store holding exactly one record whose id is the JSON
number `1`, deleted with requested id `1` — numerically equal, still unmatched. -/
theorem c9_delete_numeric_id_never_matches_witness :
    (∀ r ∈ [[("id", JVal.num 1)]], ∃ m : Int, dget r "id" = JVal.num m) ∧
    (handle_delete World.honest 1
        ⟨some (FileContent.good [[("id", JVal.num 1)]]), none⟩).2.2
      = HResult.status "task not found" 404 ∧
    (handle_delete World.honest 1
        ⟨some (FileContent.good [[("id", JVal.num 1)]]), none⟩).2.1.db
      = some (FileContent.good [[("id", JVal.num 1)]]) := by
  have h : ∀ r ∈ [[("id", JVal.num 1)]], ∃ m : Int, dget r "id" = JVal.num m := by
    intro r hr
    simp only [List.mem_singleton] at hr
    exact ⟨1, by rw [hr]; rfl⟩
  exact ⟨h, (c9_delete_numeric_id_never_matches 1 _ none h).2.1,
    (c9_delete_numeric_id_never_matches 1 _ none h).2.2⟩

/-- Claim C5: a `Patch` whose payload id (present and non-null) matches no record
in the loaded snapshot still commits the otherwise-unmodified snapshot to disk
(the database file afterwards holds exactly the loaded record list, written via
the temporary file, which is gone afterwards) and reports success, status "ok"
with HTTP code 200 — not a not-found outcome. -/
theorem c5_patch_no_match_still_commits (d : List Rec) (t : Option FileContent)
    (ud : Rec) (hid : (dget ud "id").isNull = false)
    (hno : ∀ r ∈ d, pyEq (dget r "id") (dget ud "id") = false) :
    (handle_patch World.honest ud ⟨some (FileContent.good d), t⟩).2.2
      = HResult.status "ok" 200 ∧
    (handle_patch World.honest ud ⟨some (FileContent.good d), t⟩).2.1.db
      = some (FileContent.good d) ∧
    (handle_patch World.honest ud ⟨some (FileContent.good d), t⟩).2.1.tmp = none := by
  have hscan := patchScan_noMatch ud (dget ud "id") d hno
  refine ⟨?_, ?_, ?_⟩ <;>
    simp [handle_patch, hid, readDb, World.honest, hscan, writeBlock,
      replaceStep, cleanupTmp, FS.setF, FS.getF]

/-- Witness for C5: patching id "1" into a store that only has id "2". -/
theorem c5_patch_no_match_still_commits_witness :
    ((dget [("id", JVal.str "1"), ("done", JVal.bool true)] "id").isNull = false) ∧
    (∀ r ∈ [[("id", JVal.str "2")]],
      pyEq (dget r "id")
        (dget [("id", JVal.str "1"), ("done", JVal.bool true)] "id") = false) ∧
    (handle_patch World.honest [("id", JVal.str "1"), ("done", JVal.bool true)]
        ⟨some (FileContent.good [[("id", JVal.str "2")]]), none⟩).2.2
      = HResult.status "ok" 200 ∧
    (handle_patch World.honest [("id", JVal.str "1"), ("done", JVal.bool true)]
        ⟨some (FileContent.good [[("id", JVal.str "2")]]), none⟩).2.1.db
      = some (FileContent.good [[("id", JVal.str "2")]]) := by
  have hno : ∀ r ∈ [[("id", JVal.str "2")]],
      pyEq (dget r "id")
        (dget [("id", JVal.str "1"), ("done", JVal.bool true)] "id") = false := by
    intro r hr
    simp only [List.mem_singleton] at hr
    rw [hr]
    rfl
  exact ⟨rfl, hno,
    (c5_patch_no_match_still_commits [[("id", JVal.str "2")]] none
      [("id", JVal.str "1"), ("done", JVal.bool true)] rfl hno).1,
    (c5_patch_no_match_still_commits [[("id", JVal.str "2")]] none
      [("id", JVal.str "1"), ("done", JVal.bool true)] rfl hno).2.1⟩

/-- The stored record of testable property P3. -/
def p3Stored : Rec := [("id", JVal.str "1"), ("title", JVal.str "a"), ("done", JVal.bool false)]

/-- The patch payload of testable property P3. -/
def p3Patch : Rec := [("id", JVal.str "1"), ("done", JVal.bool true)]

/-- The expected stored record after the P3 patch. -/
def p3StoredAfter : Rec := [("id", JVal.str "1"), ("title", JVal.str "a"), ("done", JVal.bool true)]

/-- Claim C6: patching the store holding
`p3Stored = [id "1", title "a", done false]` with the payload
`p3Patch = [id "1", done true]` turns the stored record into
`p3StoredAfter = [id "1", title "a", done true]` with a success status; and in
general (for payloads with duplicate-free keys, which Python dicts guarantee)
the merged record `dupdate stored (patchUpdates upd)` looks up every key to the
payload value when the payload carries that key and it is not `id`, and to the
original stored value otherwise — so absent fields stay untouched and the `id`
field is never modified. -/
theorem c6_patch_merges_fields (stored upd : Rec) (k : String)
    (hN : ((patchUpdates upd).map Prod.fst).Nodup) :
    (handle_patch World.honest p3Patch
        ⟨some (FileContent.good [p3Stored]), none⟩).2.1.db
      = some (FileContent.good [p3StoredAfter]) ∧
    (handle_patch World.honest p3Patch
        ⟨some (FileContent.good [p3Stored]), none⟩).2.2
      = HResult.status "ok" 200 ∧
    lookupJ k (dupdate stored (patchUpdates upd))
      = (if k ≠ "id" ∧ (lookupJ k upd).isSome
         then lookupJ k upd else lookupJ k stored) := by
  refine ⟨rfl, rfl, ?_⟩
  by_cases hid : k = "id"
  · subst hid
    have hnotmem : ∀ p ∈ patchUpdates upd, p.1 ≠ "id" :=
      lookupJ_eq_none.mp (lookupJ_patchUpdates_id upd)
    rw [lookupJ_dupdate_not_mem _ _ hnotmem]
    simp
  · by_cases hv : (lookupJ k upd).isSome
    · obtain ⟨v, hv1⟩ := Option.isSome_iff_exists.mp hv
      have hpu : lookupJ k (patchUpdates upd) = some v := by
        rw [lookupJ_patchUpdates upd hid, hv1]
      rw [lookupJ_dupdate_of_lookupJ _ _ hN hpu, if_pos ⟨hid, hv⟩, hv1]
    · have hnone : lookupJ k upd = none := Option.not_isSome_iff_eq_none.mp hv
      have hpu : lookupJ k (patchUpdates upd) = none := by
        rw [lookupJ_patchUpdates upd hid, hnone]
      have hnotmem : ∀ p ∈ patchUpdates upd, p.1 ≠ k := lookupJ_eq_none.mp hpu
      rw [lookupJ_dupdate_not_mem _ _ hnotmem]
      simp [hv]

/-- Witness for C6 at the P3 instance, probing the merged record at key
"done" (overwritten by the payload). -/
theorem c6_patch_merges_fields_witness :
    ((patchUpdates p3Patch).map Prod.fst).Nodup ∧
    ((handle_patch World.honest p3Patch
        ⟨some (FileContent.good [p3Stored]), none⟩).2.1.db
      = some (FileContent.good [p3StoredAfter]) ∧
    (handle_patch World.honest p3Patch
        ⟨some (FileContent.good [p3Stored]), none⟩).2.2
      = HResult.status "ok" 200 ∧
    lookupJ "done" (dupdate p3Stored (patchUpdates p3Patch))
      = (if "done" ≠ "id" ∧ (lookupJ "done" p3Patch).isSome
         then lookupJ "done" p3Patch else lookupJ "done" p3Stored)) :=
  ⟨by decide, c6_patch_merges_fields p3Stored p3Patch "done" (by decide)⟩

/-- Claim C1 (refuting instance): `Delete(1)` on the store holding exactly the
record `[id "1", done false]`, with no temporary file present and no injected
I/O failure, reports the write-failure status (500) — because line 263 of the
source wrote the filtered list in place over `DB_FILE` and the subsequent
`os.replace(DB_FILENAME_TMP, DB_FILE)` raised `FileNotFoundError` — yet the
database file now holds the post-delete snapshot `[]`, not the pre-delete
snapshot, contradicting "state unchanged on error". -/
theorem c1_delete_write_failure_mutates_snapshot (d : List Rec)
    (t : Option FileContent) (r : Rec) :
    (handle_delete World.honest 1
        ⟨some (FileContent.good [[("id", JVal.str "1"), ("done", JVal.bool false)]]),
         none⟩).2.2
      = HResult.status "OSError, IOError, JSONEncodeError" 500 ∧
    (handle_delete World.honest 1
        ⟨some (FileContent.good [[("id", JVal.str "1"), ("done", JVal.bool false)]]),
         none⟩).2.1.db
      = some (FileContent.good []) ∧
    (FileContent.good ([] : List Rec)
      = FileContent.good [[("id", JVal.str "1"), ("done", JVal.bool false)]] → False) ∧
    (handle_post ⟨false, true, false⟩ r ⟨some (FileContent.good d), t⟩).2.1.db
      = some (FileContent.good d) ∧
    (handle_post ⟨false, false, true⟩ r ⟨some (FileContent.good d), t⟩).2.1.db
      = some (FileContent.good d) :=
  ⟨rfl, rfl, fun h => by simp at h, rfl, rfl⟩

/-- Claim C2 (refuting instance): the full event traces on a matched delete and
on an append over the same one-record store.  `handle_post` follows the
atomic-commit protocol — it opens only the temporary file for writing, flushes
and fsyncs it, then renames it onto the target — and so does the start-up
initialization; but `handle_delete` opens the target `DB_FILE` itself for
in-place writing and then renames a temporary file it never wrote. -/
theorem c2_delete_opens_target_in_place :
    (handle_delete World.honest 1
        ⟨some (FileContent.good [[("id", JVal.str "1")]]), none⟩).1
      = [Ev.acquire, Ev.openRead .db, Ev.openWrite .db, Ev.dump .db, Ev.flush .db,
         Ev.fsync .db, Ev.replace .tmp .db, Ev.release] ∧
    ((handle_delete World.honest 1
        ⟨some (FileContent.good [[("id", JVal.str "1")]]), none⟩).1.contains
      (Ev.openWrite .db)) = true ∧
    (handle_post World.honest [("id", JVal.str "2")]
        ⟨some (FileContent.good [[("id", JVal.str "1")]]), none⟩).1
      = [Ev.acquire, Ev.openRead .db, Ev.openWrite .tmp, Ev.dump .tmp, Ev.flush .tmp,
         Ev.fsync .tmp, Ev.replace .tmp .db, Ev.release] ∧
    ((handle_post World.honest [("id", JVal.str "2")]
        ⟨some (FileContent.good [[("id", JVal.str "1")]]), none⟩).1.contains
      (Ev.openWrite .db)) = false ∧
    (db_init World.honest ⟨some (FileContent.good [[("id", JVal.str "1")]]), none⟩).1
      = [Ev.acquire, Ev.openWrite .tmp, Ev.dump .tmp, Ev.flush .tmp,
         Ev.fsync .tmp, Ev.replace .tmp .db, Ev.release] :=
  ⟨rfl, rfl, rfl, rfl, rfl⟩

/-- Claim C3 (refuting instance): `Delete("1")` on a store containing exactly one
record with id "1" does yield a store with zero records, but the reported result
is the write-failure status 500, not a success result (the in-place write
succeeded and the rename of the nonexistent temporary file then failed);
invoking `Delete("1")` again yields the not-found 404 result and leaves the
store unchanged. -/
theorem c3_delete_deletes_but_reports_write_failure :
    (handle_delete World.honest 1
        ⟨some (FileContent.good [[("id", JVal.str "1")]]), none⟩).2.1.db
      = some (FileContent.good []) ∧
    (handle_delete World.honest 1
        ⟨some (FileContent.good [[("id", JVal.str "1")]]), none⟩).2.2
      = HResult.status "OSError, IOError, JSONEncodeError" 500 ∧
    ((handle_delete World.honest 1
        ⟨some (FileContent.good [[("id", JVal.str "1")]]), none⟩).2.2
      = HResult.status "ok" 200 → False) ∧
    (handle_delete World.honest 1
        (handle_delete World.honest 1
          ⟨some (FileContent.good [[("id", JVal.str "1")]]), none⟩).2.1).2.2
      = HResult.status "task not found" 404 ∧
    (handle_delete World.honest 1
        (handle_delete World.honest 1
          ⟨some (FileContent.good [[("id", JVal.str "1")]]), none⟩).2.1).2.1.db
      = some (FileContent.good []) :=
  ⟨rfl, rfl, fun h => by injection h with h1 h2; exact absurd h2 (by decide),
   rfl, rfl⟩

/-- A record with id "1" and title "a" (used by the C7 instance). -/
def recId1a : Rec := [("id", JVal.str "1"), ("title", JVal.str "a")]

/-- A record with id "2" (used by the C7 instance). -/
def recId2 : Rec := [("id", JVal.str "2")]

/-- A second record with id "1" (used by the C7 instance). -/
def recId1b : Rec := [("id", JVal.str "1"), ("title", JVal.str "b")]

/-- A record with id "3" (used by the C7 instance). -/
def recId3 : Rec := [("id", JVal.str "3")]

/-- Claim C7 (refuting instance): `Delete(1)` on the store
`[recId1a, recId2, recId1b, recId3]` removes every record whose id equals "1"
(the canonical string form) and preserves the order of the remaining records —
the file afterwards holds `[recId2, recId3]` — and `Delete(9)` on the same
store reports not-found with an event trace showing no write at all; but the
matched delete reports the write-failure status 500, not success, because the
filtered sequence was written in place and the rename of the missing temporary
file failed. -/
theorem c7_delete_filters_all_matches_but_fails :
    (handle_delete World.honest 1
        ⟨some (FileContent.good [recId1a, recId2, recId1b, recId3]), none⟩).2.1.db
      = some (FileContent.good [recId2, recId3]) ∧
    (handle_delete World.honest 1
        ⟨some (FileContent.good [recId1a, recId2, recId1b, recId3]), none⟩).2.2
      = HResult.status "OSError, IOError, JSONEncodeError" 500 ∧
    ((handle_delete World.honest 1
        ⟨some (FileContent.good [recId1a, recId2, recId1b, recId3]), none⟩).2.2
      = HResult.status "ok" 200 → False) ∧
    (handle_delete World.honest 9
        ⟨some (FileContent.good [recId1a, recId2, recId1b, recId3]), none⟩).2.2
      = HResult.status "task not found" 404 ∧
    (handle_delete World.honest 9
        ⟨some (FileContent.good [recId1a, recId2, recId1b, recId3]), none⟩).2.1.db
      = some (FileContent.good [recId1a, recId2, recId1b, recId3]) ∧
    (handle_delete World.honest 9
        ⟨some (FileContent.good [recId1a, recId2, recId1b, recId3]), none⟩).1
      = [Ev.acquire, Ev.openRead .db, Ev.release] :=
  ⟨rfl, rfl, fun h => by injection h with h1 h2; exact absurd h2 (by decide),
   rfl, rfl, rfl⟩

/-- Claim C4 is false as stated: `FetchAll` on a corrupt file does not return a
structured status object — `handle_get` re-raises `json.JSONDecodeError` as
`RuntimeError`, which propagates to the caller; likewise an operation hitting
the lock timeout re-raises `filelock.Timeout` as `RuntimeError`. -/
theorem c4_get_corrupt_and_timeout_raise :
    (handle_get World.honest ⟨some FileContent.corrupt, none⟩).2.2
      = HResult.raised "handle_get() : DB corrupted" ∧
    ((handle_get World.honest ⟨some FileContent.corrupt, none⟩).2.2).isStructured
      = false ∧
    (handle_post ⟨true, false, false⟩ [("id", JVal.str "1")]
        ⟨some (FileContent.good []), none⟩).2.2
      = HResult.raised "handle_post() : DB currently locked by another ops" ∧
    ((handle_post ⟨true, false, false⟩ [("id", JVal.str "1")]
        ⟨some (FileContent.good []), none⟩).2.2).isStructured = false :=
  ⟨rfl, rfl, rfl, rfl⟩

/-- Claim C4 as amended: load failures are caught at the operation boundary and
returned as structured status objects (missing store: 404 in every operation;
corrupt store: 500 in Append, Patch, Delete), and write-phase failures (a failed
write block, and a failed rename) are returned as the structured 500
write-failure status — but FetchAll on a corrupt file, and a lock timeout in any
of the four operations, are re-raised as RuntimeError and propagate to the
caller instead of being converted to a status result. -/
theorem c4_amended_failure_surface (t : Option FileContent) (r ud : Rec)
    (s : String) (n : Nat) (d : List Rec) (b1 b2 : Bool) (fs : FS) :
    (handle_get World.honest ⟨none, t⟩).2.2 = HResult.status "DB missing" 404 ∧
    (handle_post World.honest r ⟨none, t⟩).2.2
      = HResult.status "DB file missing" 404 ∧
    (handle_patch World.honest (("id", JVal.str s) :: ud) ⟨none, t⟩).2.2
      = HResult.status "DB file missing" 404 ∧
    (handle_delete World.honest n ⟨none, t⟩).2.2
      = HResult.status "DB file missing" 404 ∧
    (handle_post World.honest r ⟨some FileContent.corrupt, t⟩).2.2
      = HResult.status "DB file corrupted" 500 ∧
    (handle_patch World.honest (("id", JVal.str s) :: ud)
        ⟨some FileContent.corrupt, t⟩).2.2
      = HResult.status "DB file corrupted" 500 ∧
    (handle_delete World.honest n ⟨some FileContent.corrupt, t⟩).2.2
      = HResult.status "DB file corrupted" 500 ∧
    (handle_get World.honest ⟨some FileContent.corrupt, t⟩).2.2
      = HResult.raised "handle_get() : DB corrupted" ∧
    (handle_post ⟨false, true, false⟩ r ⟨some (FileContent.good d), t⟩).2.2
      = HResult.status "OSError, IOError, JSONEncodeError" 500 ∧
    (handle_patch ⟨false, true, false⟩
        (("id", JVal.str s) :: ("done", JVal.bool true) :: ud)
        ⟨some (FileContent.good d), t⟩).2.2
      = HResult.status "OSError, IOError, JSONEncodeError" 500 ∧
    (handle_delete ⟨false, true, false⟩ n
        ⟨some (FileContent.good ([("id", JVal.str (toString n))] :: d)), t⟩).2.2
      = HResult.status "OSError, IOError, JSONEncodeError" 500 ∧
    (handle_post ⟨false, false, true⟩ r ⟨some (FileContent.good d), t⟩).2.2
      = HResult.status "OSError, IOError, JSONEncodeError" 500 ∧
    (handle_get ⟨true, b1, b2⟩ fs).2.2
      = HResult.raised "handle_get() : DB busy, try again" ∧
    (handle_post ⟨true, b1, b2⟩ r ⟨some (FileContent.good d), t⟩).2.2
      = HResult.raised "handle_post() : DB currently locked by another ops" ∧
    (handle_patch ⟨true, b1, b2⟩ (("id", JVal.str s) :: ud)
        ⟨some (FileContent.good d), t⟩).2.2
      = HResult.raised "handle_patch() : DB currently locked by another ops" ∧
    (handle_delete ⟨true, b1, b2⟩ n ⟨some (FileContent.good d), t⟩).2.2
      = HResult.raised "handle_delete() : DB currently locked by another ops" := by
  refine ⟨?_, ?_, ?_, ?_, ?_, ?_, ?_, ?_, ?_, ?_, ?_, ?_, ?_, ?_, ?_, ?_⟩
  · cases t <;> rfl
  · cases t <;> rfl
  · cases t <;> rfl
  · cases t <;> rfl
  · cases t <;> rfl
  · cases t <;> rfl
  · cases t <;> rfl
  · cases t <;> rfl
  · rfl
  · -- patch with an injected write failure: the scan cannot be the no-op case
    have hne : (patchUpdates
        (("id", JVal.str s) :: ("done", JVal.bool true) :: ud)).isEmpty = false := rfl
    rcases hs : patchScan (("id", JVal.str s) :: ("done", JVal.bool true) :: ud)
        (JVal.str s) d
      with _ | _ | newDb
    · simp [handle_patch, readDb, hs, writeBlock, cleanupTmp, JVal.isNull, dget, lookupJ]
    · exact absurd hs (patchScan_ne_emptyUpdates _ _ _ hne)
    · simp [handle_patch, readDb, hs, writeBlock, cleanupTmp, JVal.isNull, dget, lookupJ]
  · -- delete with an injected write failure: the head record always matches
    have hhead : pyEq (dget [("id", JVal.str (toString n))] "id")
        (JVal.str (toString n)) = true := by
      show (toString n == toString n) = true
      simp
    have hfil : ([[("id", JVal.str (toString n))]] ++ d).filter
          (fun data => !(pyEq (dget data "id") (JVal.str (toString n))))
        = d.filter (fun data => !(pyEq (dget data "id") (JVal.str (toString n)))) := by
      simp [List.filter_cons, hhead]
    have hlen : (([("id", JVal.str (toString n))] :: d).filter
          (fun data => !(pyEq (dget data "id") (JVal.str (toString n))))).length
        ≠ ([("id", JVal.str (toString n))] :: d).length := by
      rw [show ([("id", JVal.str (toString n))] :: d) =
        [[("id", JVal.str (toString n))]] ++ d from rfl, hfil]
      have hle := List.length_filter_le
        (fun data => !(pyEq (dget data "id") (JVal.str (toString n)))) d
      simp only [List.length_append, List.length_cons]
      omega
    simp only [handle_delete, readDb, writeBlock, cleanupTmp, if_neg hlen]
    rfl
  · rfl
  · rfl
  · cases t <;> rfl
  · cases t <;> rfl
  · cases t <;> rfl
